import Mathlib

/-!
Verification of the sr-gan crowd experiment core (srgan.py and crowd/srgan.py).

The numeric tensor operations of the source are embedded over `ℚ`:
a batched density tensor becomes a `List (List (List ℚ))` (batch of 2-D maps),
a batched count tensor a `List ℚ`, and full-scene arrays become functions
`ℤ → ℤ → ℚ` (indexed row, column).  Means and sums mirror numpy/torch
`.mean()` / `.sum(1).sum(1)` semantics, with the mean of an empty list
taken as `0` (`0 / 0 = 0` in `ℚ`).
-/

set_option maxHeartbeats 1000000
set_option linter.unusedVariables false

namespace SrGan

/-! ### Basic tensor helpers -/

/-- `.mean()` over a 1-D batch tensor: sum divided by length. -/
def mean (l : List ℚ) : ℚ := l.sum / l.length

/-- `.sum(1).sum(1)` on one item: the sum of every entry of a 2-D map. -/
def sum2 (m : List (List ℚ)) : ℚ := (m.map List.sum).sum

/-- Elementwise binary operation on two 2-D maps (numpy broadcasting on
equal shapes; mismatched rows/columns truncate, which never occurs for the
equal-shape tensors of the source). -/
def zipWith2D (f : ℚ → ℚ → ℚ) (a b : List (List ℚ)) : List (List ℚ) :=
  List.zipWith (List.zipWith f) a b

/-- Number of entries of a 2-D map (numpy `.size`). -/
def matSize (m : List (List ℚ)) : ℕ := (m.map List.length).sum

/-- Three-way zip, used to state per-item batch formulas from the spec. -/
def zipWith3 {α β γ δ : Type} (f : α → β → γ → δ) : List α → List β → List γ → List δ
  | a :: as, b :: bs, c :: cs => f a b c :: zipWith3 f as bs cs
  | _, _, _ => []

/-! ### CrowdExperiment.labeled_loss_function (crowd/srgan.py lines 201-207)

`density_loss = torch.abs(pd - td).pow(2).sum(1).sum(1).mean()`
`count_loss = torch.abs(pc - td.sum(1).sum(1)).pow(2).mean()`
`return count_loss + (density_loss * 10)` -/

/-- Batch mean of the per-item spatial sum of `|pd - td| ^ 2`. -/
def density_loss (pds tds : List (List (List ℚ))) : ℚ :=
  mean (List.zipWith (fun pd td => sum2 (zipWith2D (fun a b => |a - b| ^ 2) pd td)) pds tds)

/-- Batch mean of `|pc - spatial sum of td| ^ 2`. -/
def count_loss (pcs : List ℚ) (tds : List (List (List ℚ))) : ℚ :=
  mean (List.zipWith (fun pc td => |pc - sum2 td| ^ 2) pcs tds)

/-- The crowd labeled loss.  `predicted_labels` is the pair
(batched predicted density maps, batched predicted counts), as unpacked on
line 204 of the source.  The `order` parameter exists in the source
signature (`order=2`) but the body hard-codes `.pow(2)`, so it is unused. -/
def labeled_loss_function (predicted_labels : List (List (List ℚ)) × List ℚ)
    (labels : List (List (List ℚ))) (order : ℕ) : ℚ :=
  count_loss predicted_labels.2 labels + density_loss predicted_labels.1 labels * 10

/-- The loss formula as worded by the spec sentence behind claim C3:
mean over the batch of
`(pc - true count)^2 + 10 * (mean over pixels of (pd - td)^2)`. -/
def spec_labeled_loss_mean_pixels (pds : List (List (List ℚ))) (pcs : List ℚ)
    (tds : List (List (List ℚ))) : ℚ :=
  mean (zipWith3 (fun pd pc td =>
    (pc - sum2 td) ^ 2
      + 10 * (sum2 (zipWith2D (fun a b => (a - b) ^ 2) pd td)
                / (matSize (zipWith2D (fun a b => (a - b) ^ 2) pd td) : ℚ)))
    pds pcs tds)

/-- The amended loss formula: mean over the batch of
`(pc - true count)^2 + 10 * (sum over pixels of (pd - td)^2)`. -/
def spec_labeled_loss_sum_pixels (pds : List (List (List ℚ))) (pcs : List ℚ)
    (tds : List (List (List ℚ))) : ℚ :=
  mean (zipWith3 (fun pd pc td =>
    (pc - sum2 td) ^ 2 + 10 * sum2 (zipWith2D (fun a b => (a - b) ^ 2) pd td))
    pds pcs tds)

/-! ### CrowdExperiment.evaluation_epoch statistics (crowd/srgan.py lines 123-149)

The loop concatenates the per-batch network outputs in dataset order, so the
accumulated arrays equal the per-example map over the dataset. -/

/-- `np.abs(predicted_counts - densities.sum(1).sum(1)).mean()` (line 139). -/
def count_mae (pcs : List ℚ) (tds : List (List (List ℚ))) : ℚ :=
  mean (List.zipWith (fun pc td => |pc - sum2 td|) pcs tds)

/-- `np.abs(predicted_densities - densities).sum(1).sum(1).mean()` (line 141). -/
def density_mae (pds tds : List (List (List ℚ))) : ℚ :=
  mean (List.zipWith (fun pd td => sum2 (zipWith2D (fun a b => |a - b|) pd td)) pds tds)

/-- `(np.abs(predicted_counts - densities.sum(1).sum(1)) ** 2).mean()` (line 143). -/
def count_mse (pcs : List ℚ) (tds : List (List (List ℚ))) : ℚ :=
  mean (List.zipWith (fun pc td => |pc - sum2 td| ^ 2) pcs tds)

/-- `(np.abs(predicted_densities - densities) ** 2).sum(1).sum(1).mean()` (line 145). -/
def density_mse (pds tds : List (List (List ℚ))) : ℚ :=
  mean (List.zipWith (fun pd td => sum2 (zipWith2D (fun a b => |a - b| ^ 2) pd td)) pds tds)

/-- Count MSE written with a plain (unsigned) squared difference, for
comparison against the abs-then-square form of the source. -/
def count_mse_plain (pcs : List ℚ) (tds : List (List (List ℚ))) : ℚ :=
  mean (List.zipWith (fun pc td => (pc - sum2 td) ^ 2) pcs tds)

/-- Density MSE written with a plain squared difference. -/
def density_mse_plain (pds tds : List (List (List ℚ))) : ℚ :=
  mean (List.zipWith (fun pd td => sum2 (zipWith2D (fun a b => (a - b) ^ 2) pd td)) pds tds)

/-- The four statistics reported by `evaluation_epoch`
(count MAE, density MAE, count MSE, density MSE); the function's return
value is the first component (line 149 returns `count_mae`).  `net` is the
composite `images_to_predicted_labels` call: image to
(predicted density map, predicted count). -/
def evaluation_epoch {α : Type} (net : α → List (List ℚ) × ℚ)
    (dataset : List (α × List (List ℚ))) : ℚ × ℚ × ℚ × ℚ :=
  (count_mae (dataset.map fun e => (net e.1).2) (dataset.map fun e => e.2),
   density_mae (dataset.map fun e => (net e.1).1) (dataset.map fun e => e.2),
   count_mse (dataset.map fun e => (net e.1).2) (dataset.map fun e => e.2),
   density_mse (dataset.map fun e => (net e.1).1) (dataset.map fun e => e.2))

/-! ### CrowdExperiment.batches_of_patches_with_position (crowd/srgan.py lines 277-299)

The generator keeps a local `half_patch_size = 0` with the comment
"Don't move on the first patch." and never reassigns it.  Each inner-loop
iteration does `x += half_patch_size`; resets `x = 0` and does
`y += half_patch_size` when `x >= label.shape[1]`; stops (yielding any
partial batch) when `y >= label.shape[0]`; otherwise emits one patch
centered at the current `(x, y)`. -/

/-- The generator's `half_patch_size` local: initialized to `0` and never
reassigned anywhere in the loop body. -/
def bpwp_half_patch_size : ℕ := 0

/-- One inner-loop iteration's update of `(x, y)` for a scene of width `W`
(`W = full_example.label.shape[1]`). -/
def bpwp_advance (W : ℕ) (p : ℕ × ℕ) : ℕ × ℕ :=
  if W ≤ p.1 + bpwp_half_patch_size then (0, p.2 + bpwp_half_patch_size)
  else (p.1 + bpwp_half_patch_size, p.2)

/-- `(x, y)` after `n` inner-loop iterations, starting from `(0, 0)`.
The `n`-th emitted patch (counting from 1) is centered at
`bpwp_position W n`, provided the stop test `H ≤ y` has not fired. -/
def bpwp_position (W : ℕ) : ℕ → ℕ × ℕ
  | 0 => (0, 0)
  | n + 1 => bpwp_advance W (bpwp_position W n)

/-! ### CrowdExperiment.evaluate overlap normalization (crowd/srgan.py lines 262-264)

`hit_predicted_label[hit_predicted_label == 0] = 1`
`full_predicted_label = sum_density_label / hit_predicted_label`
`full_predicted_count = np.sum(sum_count_label / hit_predicted_label)` -/

/-- The in-place clamp `hit[hit == 0] = 1`, applied per entry. -/
def clampHit (h : ℕ) : ℕ := if h = 0 then 1 else h

/-- Elementwise `sum_density_label / clamped hit count`. -/
def full_predicted_label (sum_density_label : ℤ → ℤ → ℚ)
    (hit_predicted_label : ℤ → ℤ → ℕ) : ℤ → ℤ → ℚ :=
  fun i j => sum_density_label i j / (clampHit (hit_predicted_label i j) : ℚ)

/-- `np.sum(sum_count_label / clamped hit count)` over the `H × W` scene. -/
def full_predicted_count (H W : ℕ) (sum_count_label : ℤ → ℤ → ℚ)
    (hit_predicted_label : ℤ → ℤ → ℕ) : ℚ :=
  ∑ i ∈ Finset.range H, ∑ j ∈ Finset.range W,
    sum_count_label i j / (clampHit (hit_predicted_label i j) : ℚ)

/-! ### CrowdExperiment.evaluate accumulation (crowd/srgan.py lines 224-261)

The three same-shaped buffers and the per-patch region add with boundary
clipping.  For a patch centered at `(x, y)` the destination rows are
`[max (y - half) 0, min (y + half + 1) H)` (the source's
`y - half + y_start_offset` to `y + half + 1 - y_end_offset`), and likewise
for columns; the source cell for destination `(i, j)` is
`(i - y + half, j - x + half)`. -/

structure Buffers where
  sum_density_label : ℤ → ℤ → ℚ
  sum_count_label : ℤ → ℤ → ℚ
  hit_predicted_label : ℤ → ℤ → ℕ

/-- `np.zeros_like(full_example.label)` three times (lines 225-227). -/
def initBuffers : Buffers :=
  ⟨fun _ _ => 0, fun _ _ => 0, fun _ _ => 0⟩

/-- Whether scene cell `(i, j)` lies in the clipped window of the patch
centered at `(x, y)`. -/
abbrev inPatchRegion (H W half x y i j : ℤ) : Prop :=
  max (y - half) 0 ≤ i ∧ i < min (y + half + 1) H ∧
    max (x - half) 0 ≤ j ∧ j < min (x + half + 1) W

/-- One patch's contribution (lines 235-261): add the clipped predicted
density into `sum_density_label`, the uniform per-pixel count
`predicted_count / predicted_label.size` into `sum_count_label`, and `1`
into `hit_predicted_label`, over the same region. -/
def add_patch (H W half x y : ℤ) (predicted_label : ℤ → ℤ → ℚ)
    (predicted_count : ℚ) (label_size : ℚ) (b : Buffers) : Buffers :=
  ⟨fun i j => b.sum_density_label i j +
      if inPatchRegion H W half x y i j then predicted_label (i - y + half) (j - x + half) else 0,
   fun i j => b.sum_count_label i j +
      if inPatchRegion H W half x y i j then predicted_count / label_size else 0,
   fun i j => b.hit_predicted_label i j +
      if inPatchRegion H W half x y i j then 1 else 0⟩

/-- The patch center positions seen by `evaluate`.  `evaluate`'s
`sliding_window_step` parameter (default 10) is accepted but never read by
the source body; the generator is invoked without it. -/
def evaluate_positions (sliding_window_step : ℕ) (W : ℕ) (n : ℕ) : ℕ × ℕ :=
  bpwp_position W n

/-- The aggregation buffers after the first `n` patches of a scene have
been accumulated.  `net` maps a patch center position to the network's
(predicted density map, predicted count) for the patch extracted there;
`label_size` is `predicted_label.size`.  The `sliding_window_step`
parameter is carried from `evaluate`'s signature and, as in the source,
never read. -/
def evaluate_buffers (sliding_window_step : ℕ) (H W : ℕ) (half : ℤ)
    (net : ℕ × ℕ → (ℤ → ℤ → ℚ) × ℚ) (label_size : ℚ) : ℕ → Buffers
  | 0 => initBuffers
  | n + 1 =>
    add_patch H W half (bpwp_position W (n + 1)).1 (bpwp_position W (n + 1)).2
      (net (bpwp_position W (n + 1))).1 (net (bpwp_position W (n + 1))).2 label_size
      (evaluate_buffers sliding_window_step H W half net label_size n)

/-- The per-scene error pair of `evaluate` (lines 262-266): density error
`np.abs(full_predicted_label - label).sum()` and count error
`np.abs(full_predicted_count - label.sum())`, computed from the buffers
after `n` patches. -/
def evaluate_scene_errors (sliding_window_step : ℕ) (H W : ℕ) (half : ℤ)
    (net : ℕ × ℕ → (ℤ → ℤ → ℚ) × ℚ) (label_size : ℚ) (n : ℕ)
    (label : ℤ → ℤ → ℚ) : ℚ × ℚ :=
  (∑ i ∈ Finset.range H, ∑ j ∈ Finset.range W,
      |full_predicted_label
          (evaluate_buffers sliding_window_step H W half net label_size n).sum_density_label
          (evaluate_buffers sliding_window_step H W half net label_size n).hit_predicted_label
          i j - label i j|,
   |full_predicted_count H W
        (evaluate_buffers sliding_window_step H W half net label_size n).sum_count_label
        (evaluate_buffers sliding_window_step H W half net label_size n).hit_predicted_label
      - ∑ i ∈ Finset.range H, ∑ j ∈ Finset.range W, label i j|)

/-! ### Fail-fast configuration dispatch (srgan.py lines 28-51, crowd/srgan.py lines 25-66)

`run_srgan` creates the trial directory and two summary writers, then
dispatches on `settings.application`, raising
``ValueError('`application` cannot be {}.')`` for unrecognized names before
`dataset_setup` / `model_setup` / the training loop run.
`CrowdExperiment.dataset_setup` dispatches on `settings.crowd_dataset` and
raises `ValueError('{} is not an understood crowd dataset.')` for
unrecognized names without constructing any dataset. -/

inductive RunEffect
  | makedirs
  | createSummaryWriter
  | datasetSetup
  | modelSetup
  | loadModel
  | trainingStep
deriving DecidableEq

/-- Effect trace and raised error of `run_srgan` (srgan.py lines 21-106). -/
def run_srgan (application : String) (steps_to_run : ℕ) (load_model : Bool) :
    List RunEffect × Option String :=
  if application = "coefficient" ∨ application = "age" then
    ([RunEffect.makedirs, RunEffect.createSummaryWriter, RunEffect.createSummaryWriter,
      RunEffect.datasetSetup, RunEffect.modelSetup]
      ++ (if load_model then [RunEffect.loadModel] else [])
      ++ List.replicate steps_to_run RunEffect.trainingStep, none)
  else
    ([RunEffect.makedirs, RunEffect.createSummaryWriter, RunEffect.createSummaryWriter],
     some ("`application` cannot be " ++ application ++ "."))

inductive CrowdSetupEffect
  | buildWorldExpoDatasets
  | buildShanghaiTechDatasets
deriving DecidableEq

/-- Effect trace and raised error of `CrowdExperiment.dataset_setup`
(crowd/srgan.py lines 25-66). -/
def dataset_setup (crowd_dataset : String) : List CrowdSetupEffect × Option String :=
  if crowd_dataset = "World Expo" then ([CrowdSetupEffect.buildWorldExpoDatasets], none)
  else if crowd_dataset = "ShanghaiTech" then ([CrowdSetupEffect.buildShanghaiTechDatasets], none)
  else ([], some (crowd_dataset ++ " is not an understood crowd dataset."))

/-! ### Helper lemmas -/

lemma mean_eq_zero (l : List ℚ) (h : ∀ x ∈ l, x = 0) : mean l = 0 := by
  unfold mean
  rw [List.sum_eq_zero h, zero_div]

lemma zipWith_self_sum_zero (f : ℚ → ℚ → ℚ) (hf : ∀ a, f a a = 0) (r : List ℚ) :
    (List.zipWith f r r).sum = 0 := by
  induction r with
  | nil => rfl
  | cons a t ih => simp [hf, ih]

lemma sum2_zipWith2D_self (f : ℚ → ℚ → ℚ) (hf : ∀ a, f a a = 0) (m : List (List ℚ)) :
    sum2 (zipWith2D f m m) = 0 := by
  induction m with
  | nil => rfl
  | cons r t ih =>
    simp only [zipWith2D, List.zipWith_cons_cons, sum2, List.map_cons, List.sum_cons] at ih ⊢
    rw [zipWith_self_sum_zero f hf r, ih, add_zero]

lemma zipWith_map_map {α β γ δ : Type} (f : β → γ → δ) (g : α → β) (k : α → γ)
    (l : List α) :
    List.zipWith f (l.map g) (l.map k) = l.map fun e => f (g e) (k e) := by
  induction l with
  | nil => rfl
  | cons a t ih => simp [ih]

lemma bpwp_advance_zero (W : ℕ) (hW : 0 < W) : bpwp_advance W (0, 0) = (0, 0) := by
  show (if W ≤ 0 + 0 then ((0 : ℕ), 0 + 0) else (0 + 0, (0 : ℕ))) = (0, 0)
  rw [if_neg (by omega)]

lemma bpwp_position_fixed (W : ℕ) (hW : 0 < W) : ∀ n, bpwp_position W n = (0, 0) := by
  intro n
  induction n with
  | zero => rfl
  | succ k ih =>
    show bpwp_advance W (bpwp_position W k) = (0, 0)
    rw [ih]
    exact bpwp_advance_zero W hW

lemma zipWith3_length_eq {α β γ δ : Type} (f : α → β → γ → δ) :
    ∀ (as : List α) (bs : List β) (cs : List γ),
      as.length = cs.length → bs.length = cs.length →
      (zipWith3 f as bs cs).length = cs.length := by
  intro as
  induction as with
  | nil =>
    intro bs cs h1 h2
    cases cs with
    | nil => cases bs with
      | nil => rfl
      | cons b bs => simp at h2
    | cons c cs => simp at h1
  | cons a as ih =>
    intro bs cs h1 h2
    cases cs with
    | nil => simp at h1
    | cons c cs =>
      cases bs with
      | nil => simp at h2
      | cons b bs =>
        simp only [zipWith3, List.length_cons] at h1 h2 ⊢
        rw [ih bs cs (by omega) (by omega)]

lemma spec_sum_split :
    ∀ (pds : List (List (List ℚ))) (pcs : List ℚ) (tds : List (List (List ℚ))),
      pds.length = tds.length → pcs.length = tds.length →
      (zipWith3 (fun pd pc td =>
          (pc - sum2 td) ^ 2 + 10 * sum2 (zipWith2D (fun a b => (a - b) ^ 2) pd td))
        pds pcs tds).sum
        = (List.zipWith (fun pc td => (pc - sum2 td) ^ 2) pcs tds).sum
          + 10 * (List.zipWith (fun pd td =>
              sum2 (zipWith2D (fun a b => (a - b) ^ 2) pd td)) pds tds).sum := by
  intro pds
  induction pds with
  | nil =>
    intro pcs tds h1 h2
    cases tds with
    | nil =>
      cases pcs with
      | nil => simp [zipWith3]
      | cons p ps => simp at h2
    | cons t ts => simp at h1
  | cons p ps ih =>
    intro pcs tds h1 h2
    cases tds with
    | nil => simp at h1
    | cons t ts =>
      cases pcs with
      | nil => simp at h2
      | cons c cs =>
        simp only [zipWith3, List.zipWith_cons_cons, List.sum_cons, List.length_cons] at h1 h2 ⊢
        rw [ih cs ts (by omega) (by omega)]
        ring

/-! ### Claim theorems -/

/-- Claim C1.  The claim states that for every scene with positive height
and width the sliding-window scan of `batches_of_patches_with_position`
terminates when the y-coordinate exceeds the scene height.  The theorem
shows the opposite holds in the code: because the generator's local
`half_patch_size` is initialized to `0` and never updated, the window
position after any number `n` of iterations is still `(0, 0)`, so the
termination test `y >= label.shape[0]` (`H ≤ y`) never fires and the
generator never stops. -/
theorem c1_scan_never_reaches_termination (W H n : ℕ) (hW : 0 < W) (hH : 0 < H) :
    bpwp_position W n = (0, 0) ∧ (bpwp_position W n).2 < H := by
  refine ⟨bpwp_position_fixed W hW n, ?_⟩
  rw [bpwp_position_fixed W hW n]
  exact hH

theorem c1_scan_never_reaches_termination_witness :
    bpwp_position 1 7 = (0, 0) ∧ (bpwp_position 1 7).2 < 1 :=
  c1_scan_never_reaches_termination 1 1 7 (by decide) (by decide)

/-- Claim C2, counterexample.  The claim says consecutive patch centers
after the first differ by exactly `sliding_window_step` (default 10) along
the scanned axis.  On a scene of width 5, patches 2 and 3 (both after the
first) have identical centers, differing by 0 on both axes and not by 10
on either. -/
theorem c2_counterexample_consecutive_positions :
    bpwp_position 5 3 = bpwp_position 5 2 ∧
      ¬ ((bpwp_position 5 3).1 = (bpwp_position 5 2).1 + 10 ∨
          (bpwp_position 5 3).2 = (bpwp_position 5 2).2 + 10) := by
  decide

/-- Claim C2, amended.  The window position starts at `(0, 0)` (not at the
patch half-size offset) and advances by the generator's local
`half_patch_size`, which is initialized to `0` ("Don't move on the first
patch.") and never updated; hence no patch's position ever advances: every
pair of consecutive patches has identical center `(0, 0)`, and `evaluate`'s
`sliding_window_step` parameter plays no role in the scan. -/
theorem c2_amended_positions_never_advance (W n : ℕ) (hW : 0 < W) :
    bpwp_position W (n + 1) = bpwp_position W n ∧ bpwp_position W n = (0, 0) := by
  refine ⟨?_, bpwp_position_fixed W hW n⟩
  rw [bpwp_position_fixed W hW (n + 1), bpwp_position_fixed W hW n]

theorem c2_amended_positions_never_advance_witness :
    bpwp_position 5 3 = bpwp_position 5 2 ∧ bpwp_position 5 2 = (0, 0) :=
  c2_amended_positions_never_advance 5 2 (by decide)

/-- Claim C3, counterexample.  The claim's formula takes the mean over
pixels of the squared density difference; the source takes the sum.  For a
single-item batch with an all-zero `2 × 2` predicted density, true density
all ones, and predicted count 0, the source returns `16 + 10 * 4 = 56`
while the claim's formula gives `16 + 10 * 1 = 26`. -/
theorem c3_counterexample_mean_pixels :
    labeled_loss_function (([[[0, 0], [0, 0]]] : List (List (List ℚ))), ([0] : List ℚ))
        ([[[1, 1], [1, 1]]] : List (List (List ℚ))) 2
      ≠ spec_labeled_loss_mean_pixels ([[[0, 0], [0, 0]]] : List (List (List ℚ)))
          ([0] : List ℚ) ([[[1, 1], [1, 1]]] : List (List (List ℚ))) := by
  norm_num [labeled_loss_function, count_loss, density_loss, spec_labeled_loss_mean_pixels,
    mean, sum2, zipWith2D, matSize, zipWith3, List.zipWith, sq_abs]

/-- Claim C3, amended.  With "mean over pixels" replaced by "sum over
pixels (the spatial dimensions)", the claim holds: for equal batch lengths,
`labeled_loss_function` equals the mean over the batch of
`(pc - true count)^2 + 10 * (sum over pixels of (pd - td)^2)`, where the
true count is the spatial sum of the true density. -/
theorem c3_amended_sum_pixels (pds : List (List (List ℚ))) (pcs : List ℚ)
    (tds : List (List (List ℚ))) (o : ℕ)
    (h1 : pds.length = tds.length) (h2 : pcs.length = tds.length) :
    labeled_loss_function (pds, pcs) tds o = spec_labeled_loss_sum_pixels pds pcs tds := by
  have habs1 : (fun (pc : ℚ) (td : List (List ℚ)) => |pc - sum2 td| ^ 2)
      = fun pc td => (pc - sum2 td) ^ 2 := by
    funext a b
    exact sq_abs _
  have habs2 : (fun (a b : ℚ) => |a - b| ^ 2) = fun a b => (a - b) ^ 2 := by
    funext a b
    exact sq_abs _
  unfold labeled_loss_function count_loss density_loss spec_labeled_loss_sum_pixels mean
  simp only [habs1, habs2]
  rw [spec_sum_split pds pcs tds h1 h2,
    zipWith3_length_eq _ pds pcs tds h1 h2,
    List.length_zipWith, List.length_zipWith, h1, h2, min_self]
  ring

theorem c3_amended_sum_pixels_witness :
    labeled_loss_function (([[[0, 0], [0, 0]]] : List (List (List ℚ))), ([0] : List ℚ))
        ([[[1, 1], [1, 1]]] : List (List (List ℚ))) 2
      = spec_labeled_loss_sum_pixels ([[[0, 0], [0, 0]]] : List (List (List ℚ)))
          ([0] : List ℚ) ([[[1, 1], [1, 1]]] : List (List (List ℚ))) :=
  c3_amended_sum_pixels _ _ _ 2 (by decide) (by decide)

/-- Claim C4.  `labeled_loss_function` returns exactly
`count_loss + 10 * density_loss`; `density_loss` is the batch mean of the
per-item spatial sum of squared density differences and `count_loss` the
batch mean of the squared count difference; and on the single-item batch
with all-zero `2 × 2` predicted density, true density all ones, and
predicted count 0, the value is exactly `56 = 16 + 10 * 4`. -/
theorem c4_labeled_loss_decomposition :
    (∀ (p : List (List (List ℚ)) × List ℚ) (l : List (List (List ℚ))) (o : ℕ),
        labeled_loss_function p l o = count_loss p.2 l + 10 * density_loss p.1 l) ∧
    (∀ (pds tds : List (List (List ℚ))),
        density_loss pds tds
          = mean (List.zipWith (fun pd td =>
              sum2 (zipWith2D (fun a b => (a - b) ^ 2) pd td)) pds tds)) ∧
    (∀ (pcs : List ℚ) (tds : List (List (List ℚ))),
        count_loss pcs tds
          = mean (List.zipWith (fun pc td => (pc - sum2 td) ^ 2) pcs tds)) ∧
    labeled_loss_function (([[[0, 0], [0, 0]]] : List (List (List ℚ))), ([0] : List ℚ))
        ([[[1, 1], [1, 1]]] : List (List (List ℚ))) 2 = 56 := by
  have habs1 : (fun (pc : ℚ) (td : List (List ℚ)) => |pc - sum2 td| ^ 2)
      = fun pc td => (pc - sum2 td) ^ 2 := by
    funext a b
    exact sq_abs _
  have habs2 : (fun (a b : ℚ) => |a - b| ^ 2) = fun a b => (a - b) ^ 2 := by
    funext a b
    exact sq_abs _
  refine ⟨fun p l o => ?_, fun pds tds => ?_, fun pcs tds => ?_, ?_⟩
  · unfold labeled_loss_function
    ring
  · unfold density_loss
    simp only [habs2]
  · unfold count_loss
    simp only [habs1]
  · norm_num [labeled_loss_function, count_loss, density_loss, mean, sum2, zipWith2D,
      List.zipWith, sq_abs]

/-- Claim C5.  In the overlap normalization, every zero hit count is
clamped to one before dividing, so the divisor is always positive (no
division by zero); the final density map is the accumulated density divided
elementwise by the clamped hit count, and the final scalar count is the sum
over all pixels of the accumulated count contribution divided elementwise
by the clamped hit count. -/
theorem c5_overlap_normalization (hit : ℤ → ℤ → ℕ) (sd sc : ℤ → ℤ → ℚ)
    (H W : ℕ) (i j : ℤ) :
    0 < clampHit (hit i j) ∧
    (0 : ℚ) < (clampHit (hit i j) : ℚ) ∧
    full_predicted_label sd hit i j = sd i j / (clampHit (hit i j) : ℚ) ∧
    full_predicted_count H W sc hit
      = ∑ a ∈ Finset.range H, ∑ b ∈ Finset.range W,
          sc a b / (clampHit (hit a b) : ℚ) := by
  have hpos : 0 < clampHit (hit i j) := by
    unfold clampHit
    split
    · exact Nat.one_pos
    · exact Nat.pos_of_ne_zero (by assumption)
  exact ⟨hpos, by exact_mod_cast hpos, rfl, rfl⟩

/-- Claim C6.  If the network's predicted density equals the ground truth
everywhere in the dataset and its predicted count equals the spatial sum of
the ground truth, then `evaluation_epoch` reports count MAE, density MAE,
count MSE and density MSE all 0, and returns 0 (its return value is the
first component, the count MAE). -/
theorem c6_perfect_net_zero_error (α : Type) (net : α → List (List ℚ) × ℚ)
    (dataset : List (α × List (List ℚ)))
    (h : ∀ e ∈ dataset, (net e.1).1 = e.2 ∧ (net e.1).2 = sum2 e.2) :
    evaluation_epoch net dataset = (0, 0, 0, 0) := by
  have h1 : count_mae (dataset.map fun e => (net e.1).2) (dataset.map fun e => e.2) = 0 := by
    unfold count_mae
    rw [zipWith_map_map]
    apply mean_eq_zero
    intro x hx
    obtain ⟨e, he, rfl⟩ := List.mem_map.mp hx
    rw [(h e he).2, sub_self, abs_zero]
  have h2 : density_mae (dataset.map fun e => (net e.1).1) (dataset.map fun e => e.2) = 0 := by
    unfold density_mae
    rw [zipWith_map_map]
    apply mean_eq_zero
    intro x hx
    obtain ⟨e, he, rfl⟩ := List.mem_map.mp hx
    rw [(h e he).1]
    exact sum2_zipWith2D_self _ (fun a => by simp) e.2
  have h3 : count_mse (dataset.map fun e => (net e.1).2) (dataset.map fun e => e.2) = 0 := by
    unfold count_mse
    rw [zipWith_map_map]
    apply mean_eq_zero
    intro x hx
    obtain ⟨e, he, rfl⟩ := List.mem_map.mp hx
    rw [(h e he).2, sub_self, abs_zero]
    simp
  have h4 : density_mse (dataset.map fun e => (net e.1).1) (dataset.map fun e => e.2) = 0 := by
    unfold density_mse
    rw [zipWith_map_map]
    apply mean_eq_zero
    intro x hx
    obtain ⟨e, he, rfl⟩ := List.mem_map.mp hx
    rw [(h e he).1]
    exact sum2_zipWith2D_self _ (fun a => by simp) e.2
  unfold evaluation_epoch
  rw [h1, h2, h3, h4]

theorem c6_perfect_net_zero_error_witness :
    evaluation_epoch (fun im : List (List ℚ) => (im, sum2 im))
        [([[1, 2], [3, 4]], [[1, 2], [3, 4]])] = (0, 0, 0, 0) :=
  c6_perfect_net_zero_error (List (List ℚ)) (fun im => (im, sum2 im))
    [([[1, 2], [3, 4]], [[1, 2], [3, 4]])]
    (by
      intro e he
      rw [List.mem_singleton] at he
      subst he
      exact ⟨rfl, rfl⟩)

/-- Claim C7.  Squaring the absolute difference equals squaring the plain
difference, so the count MSE and density MSE of `evaluation_epoch` (which
square `np.abs(...)`) coincide with the plain squared-difference
statistics for every input. -/
theorem c7_mse_abs_squares (pcs : List ℚ) (pds tds : List (List (List ℚ))) :
    count_mse pcs tds = count_mse_plain pcs tds ∧
      density_mse pds tds = density_mse_plain pds tds := by
  have habs1 : (fun (pc : ℚ) (td : List (List ℚ)) => |pc - sum2 td| ^ 2)
      = fun pc td => (pc - sum2 td) ^ 2 := by
    funext a b
    exact sq_abs _
  have habs2 : (fun (a b : ℚ) => |a - b| ^ 2) = fun a b => (a - b) ^ 2 := by
    funext a b
    exact sq_abs _
  constructor
  · unfold count_mse count_mse_plain
    simp only [habs1]
  · unfold density_mse density_mse_plain
    simp only [habs2]

/-- Claim C8.  For any application name other than "coefficient" and
"age", `run_srgan` stops with the descriptive ValueError message right
after creating the trial directory and summary writers, with no dataset
setup, model setup or training step in its trace; and for any crowd
dataset name other than "World Expo" and "ShanghaiTech",
`dataset_setup` raises the descriptive ValueError with an empty effect
trace (nothing is built, no training has begun). -/
theorem c8_fail_fast_unrecognized_names :
    (∀ (app : String) (steps : ℕ) (load : Bool),
        app ≠ "coefficient" → app ≠ "age" →
        run_srgan app steps load
          = ([RunEffect.makedirs, RunEffect.createSummaryWriter, RunEffect.createSummaryWriter],
             some ("`application` cannot be " ++ app ++ "."))) ∧
    (∀ name : String, name ≠ "World Expo" → name ≠ "ShanghaiTech" →
        dataset_setup name = ([], some (name ++ " is not an understood crowd dataset."))) := by
  constructor
  · intro app steps load hc ha
    simp [run_srgan, hc, ha]
  · intro name hw hs
    simp [dataset_setup, hw, hs]

theorem c8_fail_fast_unrecognized_names_witness :
    run_srgan "bogus" 2 false
        = ([RunEffect.makedirs, RunEffect.createSummaryWriter, RunEffect.createSummaryWriter],
           some ("`application` cannot be " ++ "bogus" ++ ".")) ∧
      dataset_setup "bogus" = ([], some ("bogus" ++ " is not an understood crowd dataset.")) :=
  ⟨c8_fail_fast_unrecognized_names.1 "bogus" 2 false (by decide) (by decide),
   c8_fail_fast_unrecognized_names.2 "bogus" (by decide) (by decide)⟩

/-- Claim C9.  `evaluate`'s `sliding_window_step` parameter is accepted but
never read: for any two values of the parameter, the sequence of patch
center positions, the aggregation buffers after any number of patches, and
the per-scene density and count error totals are identical. -/
theorem c9_sliding_window_step_no_effect (s1 s2 : ℕ) (H W : ℕ) (half : ℤ)
    (net : ℕ × ℕ → (ℤ → ℤ → ℚ) × ℚ) (label_size : ℚ) (n : ℕ)
    (label : ℤ → ℤ → ℚ) :
    evaluate_positions s1 W n = evaluate_positions s2 W n ∧
    evaluate_buffers s1 H W half net label_size n
      = evaluate_buffers s2 H W half net label_size n ∧
    evaluate_scene_errors s1 H W half net label_size n label
      = evaluate_scene_errors s2 H W half net label_size n label := by
  have hb : ∀ m, evaluate_buffers s1 H W half net label_size m
      = evaluate_buffers s2 H W half net label_size m := by
    intro m
    induction m with
    | zero => rfl
    | succ k ih =>
      simp only [evaluate_buffers]
      rw [ih]
  refine ⟨rfl, hb n, ?_⟩
  unfold evaluate_scene_errors
  rw [hb n]

/-- Claim C10.  `labeled_loss_function`'s `order` parameter is accepted but
unused (the exponent is hard-coded to 2), so any two values of it yield the
same loss. -/
theorem c10_order_no_effect (o1 o2 : ℕ) (p : List (List (List ℚ)) × List ℚ)
    (l : List (List (List ℚ))) :
    labeled_loss_function p l o1 = labeled_loss_function p l o2 := rfl

end SrGan
